import Mathlib

/-!
Verification of the OST-Radar core against its specification.

The Python sources are shallowly embedded:
* serial byte streams become `List Nat` of byte values (a `read(k)` call on a
  stream returns the first `min k length` bytes);
* machine integers become `Nat` (all wire fields are unsigned little-endian);
* `float` arithmetic in the signal-processing path becomes `ℝ`;
* fallible code returns `Except PyExc _` or an `Option PyExc` exception slot.
-/

namespace OstRadar

/-! ## Byte-level primitives (wire format, little-endian) -/

/-- Value of a little-endian byte list (first byte least significant);
embeds `int.from_bytes(bs, byteorder='little')`. -/
def leNat : List Nat → Nat
  | [] => 0
  | b :: bs => b + 256 * leNat bs

/-- 4-byte little-endian encoding of `n` (mod 2^32). -/
def le4 (n : Nat) : List Nat :=
  [n % 256, n / 256 % 256, n / 256 ^ 2 % 256, n / 256 ^ 3 % 256]

/-- All entries are byte values. -/
def bytesOk (l : List Nat) : Bool := l.all (· < 256)

/-- The frame magic word `02 01 04 03 06 05 08 07`
(`RadarSensor.UART_MAGIC_WORD` in `ti_radar/sensor.py`). -/
def UART_MAGIC_WORD : List Nat := [2, 1, 4, 3, 6, 5, 8, 7]

/-- `UART_MAGIC_WORD[i]` (the scan only ever indexes `i < 8`). -/
def magicByte (i : Nat) : Nat := UART_MAGIC_WORD.getD i 0

/-! ## FrameSynchronizer: `RadarSensor.read_raw_frame` (`ti_radar/sensor.py`) -/

/-- The magic-word hunt loop of `read_raw_frame` (step 1 in the source).
State: `index` into the magic word and the candidate buffer `frameData`.
Consumes one byte per step; returns the matched buffer and the rest of the
stream, or `none` on timeout (stream exhausted). On a mismatching byte the
index resets, but a byte equal to `magic[0]` restarts the candidate at
`index = 1`. -/
def hunt : List Nat → Nat → List Nat → Option (List Nat × List Nat)
  | [], _, _ => none
  | b :: s, index, frameData =>
    if b = magicByte index then
      if index + 1 = 8 then some (frameData ++ [b], s)
      else hunt s (index + 1) (frameData ++ [b])
    else
      if b = magicByte 0 then hunt s 1 [b]
      else hunt s 0 []

/-- The payload read loop of `read_raw_frame` (step 4 in the source):
`while bytes_to_read > 0: chunk = read(bytes_to_read); if not chunk: abort`.
The byte source is modelled as a script of chunk deliveries, one per `read`
call; a `read(k)` call never yields more than `k` bytes, so each delivered
chunk is truncated to the bytes still needed. -/
def readChunks (need : Nat) (script : List (List Nat)) : Option (List Nat) :=
  if need = 0 then some []
  else
    match script with
    | [] => none
    | c :: cs =>
      let chunk := c.take need
      if chunk.isEmpty then none
      else (readChunks (need - chunk.length) cs).map (fun p => chunk ++ p)

/-- `RadarSensor.read_raw_frame` over a byte stream: hunt for the magic word,
read version and length (4 bytes each), sanity-check
`16 <= frameLength <= 100000`, then loop reading the `frameLength - 16`
payload bytes.  Returns the assembled frame (or `none`) together with the
not-yet-consumed part of the stream.  On a list-modelled stream the first
payload read delivers everything available, so the chunk script is `[s3]`. -/
def read_raw_frame (s : List Nat) : Option (List Nat) × List Nat :=
  match hunt s 0 [] with
  | none => (none, [])
  | some (frameData, s1) =>
    let versionBytes := s1.take 4
    let s2 := s1.drop 4
    let lengthBytes := s2.take 4
    let s3 := s2.drop 4
    if versionBytes.length < 4 ∨ lengthBytes.length < 4 then (none, s3)
    else
      let frameLength := leNat lengthBytes
      if 100000 < frameLength ∨ frameLength < 16 then (none, s3)
      else
        match readChunks (frameLength - 16) [s3] with
        | none => (none, s3.drop (frameLength - 16))
        | some payload =>
          (some (frameData ++ versionBytes ++ lengthBytes ++ payload),
           s3.drop (frameLength - 16))

/-- Repeatedly call `read_raw_frame` (as `get_next_frame` does), collecting
the raw frames until a timeout/abort; `fuel` bounds the number of calls. -/
def readFrames : Nat → List Nat → List (List Nat)
  | 0, _ => []
  | fuel + 1, s =>
    match read_raw_frame s with
    | (none, _) => []
    | (some f, rest) => f :: readFrames fuel rest

/-! ## TlvFrameParser: `parse_standard_frame` (`ti_radar/parser.py`) -/

/-- The `outputDict` built by `parse_standard_frame`.  `pointCloud` is always
`none`: the TLV-type-1 handler `parsePointCloudTLV` in `ti_radar/parser.py`
is `pass`. -/
structure FrameRecord where
  error : Nat
  frameNum : Option Nat
  pointCloud : Option (List Nat)
  RDHM : Option (List Nat)
deriving DecidableEq, Repr

/-- Initial `outputDict = {'error': 0, 'pointCloud': None, 'RDHM': None}`. -/
def initRecord : FrameRecord :=
  { error := 0, frameNum := none, pointCloud := none, RDHM := none }

/-- Decode a byte list as a sequence of little-endian `uint16` values
(`np.frombuffer(tlvData, dtype=np.uint16)`); odd tails never arise because
the caller checks divisibility. -/
def u16ListOf : List Nat → List Nat
  | b0 :: b1 :: rest => (b0 + 256 * b1) :: u16ListOf rest
  | _ => []

/-- `parseDopplerTLV` of `ti_radar/parser.py`: reinterpret the payload as
`uint16` samples.  `np.frombuffer` raises when the payload length is not a
multiple of the item size; the handler catches that and leaves the record
unchanged. -/
def parseDopplerTLV (tlvData : List Nat) (r : FrameRecord) : FrameRecord :=
  if tlvData.length % 2 = 0 then { r with RDHM := some (u16ListOf tlvData) }
  else r

/-- TLV dispatch through `PARSER_FUNCTIONS`: type 1 is `parsePointCloudTLV`
(a no-op `pass`), type 5 is `parseDopplerTLV`, every other type is skipped. -/
def applyTlv (r : FrameRecord) (tlvType : Nat) (payload : List Nat) : FrameRecord :=
  if tlvType = 1 then r
  else if tlvType = 5 then parseDopplerTLV payload r
  else r

/-- The `for _ in range(numTLVs)` loop of `parse_standard_frame`: stop if
fewer than 8 bytes remain for the TLV sub-header, read `(type, length)`,
stop if fewer than `length` payload bytes remain, otherwise dispatch and
advance. -/
def processTlvs : Nat → List Nat → FrameRecord → FrameRecord
  | 0, _, r => r
  | n + 1, data, r =>
    if data.length < 8 then r
    else
      let tlvType := leNat (data.take 4)
      let tlvLength := leNat ((data.drop 4).take 4)
      let rest := data.drop 8
      if rest.length < tlvLength then r
      else processTlvs n (rest.drop tlvLength) (applyTlv r tlvType (rest.take tlvLength))

/-- `struct.calcsize('Q8I')`: 8-byte magic plus eight 4-byte fields. -/
def frameHeaderLen : Nat := 40

/-- `parse_standard_frame` of `ti_radar/parser.py`.  With at least 40 bytes
the `struct.unpack('Q8I', frameData[:40])` cannot fail (the slice has exactly
the struct size), so the `try` never fires in that branch; `frameNum` is the
little-endian `u32` at offset 20 and `numTLVs` at offset 32. -/
def parse_standard_frame (frameData : List Nat) : FrameRecord :=
  if frameData.length < frameHeaderLen then { initRecord with error := 1 }
  else
    let frameNum := leNat ((frameData.drop 20).take 4)
    let numTLVs := leNat ((frameData.drop 32).take 4)
    processTlvs numTLVs (frameData.drop frameHeaderLen)
      { initRecord with frameNum := some frameNum }

/-- The frame number a well-formed frame carries on the wire (little-endian
`u32` at byte offset 20). -/
def frameNumOf (f : List Nat) : Nat := leNat ((f.drop 20).take 4)

/-! ## Well-formed frames (for the round-trip property) -/

/-- The body after the 40-byte header consists of exactly `n` complete TLVs:
each with an 8-byte `(type, length)` sub-header and exactly `length` payload
bytes, with nothing left over. -/
def tlvsExact : Nat → List Nat → Bool
  | 0, body => body.isEmpty
  | n + 1, body =>
    if body.length < 8 then false
    else
      let tlvLength := leNat ((body.drop 4).take 4)
      if (body.drop 8).length < tlvLength then false
      else tlvsExact n ((body.drop 8).drop tlvLength)

/-- A well-formed frame as the round-trip property requires: byte-valued,
begins with the magic word, its little-endian length field (bytes 12..15)
equals the frame's total size, that size lies within the `[16, 100000]`
sanity bound and covers the 40-byte header, and the body holds exactly the
declared number of TLVs. -/
def wellFormedFrame (f : List Nat) : Bool :=
  bytesOk f
    && (f.take 8 == UART_MAGIC_WORD)
    && (leNat ((f.drop 12).take 4) == f.length)
    && decide (16 ≤ f.length)
    && decide (f.length ≤ 100000)
    && decide (40 ≤ f.length)
    && tlvsExact (leNat ((f.drop 32).take 4)) (f.drop 40)

/-! ## TLV sub-decoders of `radar/utils/parseTLVs.py`

The claims about these decoders concern control flow (which exceptions can
escape) and which values land in which output slot.  `struct.unpack(fmt, b)`
succeeds iff `b` has exactly `calcsize(fmt)` bytes, and the decoders always
unpack a slice `tlvData[:size]`, which has exactly `size` bytes iff
`size ≤ len(tlvData)`.  Float fields are carried as their raw little-endian
4-byte bit patterns (`Nat`): no claim in scope depends on float decoding. -/

/-- Python exception classes reachable in the embedded code. -/
inductive PyExc where
  | keyError
  | valueError
  | zeroDivisionError
  | indexError
  | unboundLocalError
deriving DecidableEq, Repr

/-- Little-endian `u16` at byte offset `off`. -/
def u16At (bs : List Nat) (off : Nat) : Nat := leNat ((bs.drop off).take 2)

/-- Little-endian `u32` (or raw `f32` bit pattern) at byte offset `off`. -/
def u32At (bs : List Nat) (off : Nat) : Nat := leNat ((bs.drop off).take 4)

/-- The `vitalsOutput` dict of `parseVitalSignsTLV`. -/
structure VitalsOutput where
  id : Nat
  rangeBin : Nat
  breathDeviation : Nat
  heartRate : Nat
  breathRate : Nat
  heartWaveform : List Nat
  breathWaveform : List Nat
deriving DecidableEq, Repr

/-- The error-case initialisation of `vitalsOutput` in `parseVitalSignsTLV`. -/
def vitalsDefault : VitalsOutput :=
  { id := 999, rangeBin := 0, breathDeviation := 0, heartRate := 0,
    breathRate := 0, heartWaveform := [], breathWaveform := [] }

/-- `struct.calcsize('2H33f')`. -/
def vitalsSize : Nat := 136

/-- `parseVitalSignsTLV` of `radar/utils/parseTLVs.py`.  Returns the value
written to `outputDict['vitals']` together with the exception escaping the
call, if any.  When `struct.unpack('2H33f', tlvData[:136])` fails (payload
shorter than 136 bytes) the `except` branch stores the default vitals dict
but does not return, so execution falls through to
`vitalsOutput['id'] = vitalsData[0]` with `vitalsData` unbound and an
`UnboundLocalError` escapes. -/
def parseVitalSignsTLV (tlvData : List Nat) (_tlvLength : Nat) :
    Option VitalsOutput × Option PyExc :=
  if tlvData.length < vitalsSize then
    (some vitalsDefault, some .unboundLocalError)
  else
    let d := tlvData.take vitalsSize
    (some
      { id := u16At d 0
        rangeBin := u16At d 2
        breathDeviation := u32At d 4
        heartRate := u32At d 8
        breathRate := u32At d 12
        heartWaveform := (List.range 15).map (fun k => u32At d (16 + 4 * k))
        breathWaveform := (List.range 15).map (fun k => u32At d (76 + 4 * k)) },
     none)

/-- `struct.calcsize('I27f')`. -/
def targetSize : Nat := 112

/-- The 12 fields copied into a track row: `targetData[0..9]`,
`targetData[26]` and `targetData[27]`, all 4-byte fields of `'I27f'`. -/
def trackRow (seg : List Nat) : List Nat :=
  ((List.range 10).map (fun j => u32At seg (4 * j))) ++
    [u32At seg (4 * 26), u32At seg (4 * 27)]

/-- `parseTrackTLV` of `radar/utils/parseTLVs.py`.  Returns
`((numDetectedTracks, target rows), escaping exception)`.  Iteration `i`
unpacks `tlvData[112*i : 112*(i+1)]`; on an unpack failure the `except`
branch logs and stores `(0, targets)` but neither breaks nor returns, so the
following line reads `targetData`: unbound on a first-iteration failure
(`UnboundLocalError` escapes), stale from the last successful iteration
otherwise (the row is silently duplicated and the loop continues).  Rows the
loop never wrote keep the `np.empty` garbage, modelled as zero rows. -/
def parseTrackTLV (tlvData : List Nat) (tlvLength : Nat) :
    (Nat × List (List Nat)) × Option PyExc :=
  let n := tlvLength / targetSize
  let ok := tlvData.length / targetSize
  if n = 0 then ((0, []), none)
  else if ok = 0 then
    ((0, (List.range n).map (fun _ => List.replicate 12 0)), some .unboundLocalError)
  else
    ((n,
      (List.range n).map (fun i =>
        trackRow ((tlvData.drop (targetSize * min i (ok - 1))).take targetSize))),
     none)

/-! ## Spherical point cloud (C9): `parseSphericalPointCloudTLV` of
`radar/utils/parseTLVs.py` composed with `sphericalToCartesianPointCloud` of
`radar/utils/mmMaths.py` (the function it imports).  The payload is carried
as the list of successfully unpacked `'4f'` records
`(range, azimuth, elevation, doppler)`; the wire-to-float step is not at
issue in the claim. -/

/-- `sphericalToCartesianPointCloud` of `radar/utils/mmMaths.py`: given rows
`(col0, col1, col2)` it writes `col0·sin(col1)·cos(col2)`,
`col0·cos(col1)·cos(col2)`, `col0·sin(col2)` into columns 0, 1, 2. -/
noncomputable def sphericalToCartesianPointCloud (pc : List (ℝ × ℝ × ℝ)) :
    List (ℝ × ℝ × ℝ) :=
  pc.map (fun p =>
    (p.1 * Real.sin p.2.1 * Real.cos p.2.2,
     p.1 * Real.cos p.2.1 * Real.cos p.2.2,
     p.1 * Real.sin p.2.2))

/-- `parseSphericalPointCloudTLV`: row `i` of `pointCloud` gets
`(rng, azimuth, elevation, doppler)` from point `i`, then columns 0..2 of
the cloud are replaced by their spherical-to-Cartesian conversion while
column 3 (doppler) is untouched. -/
noncomputable def parseSphericalPointCloudTLV (pts : List (ℝ × ℝ × ℝ × ℝ)) :
    List (ℝ × ℝ × ℝ × ℝ) :=
  let converted := sphericalToCartesianPointCloud
    (pts.map (fun r => (r.1, r.2.1, r.2.2.1)))
  List.zipWith (fun c r => (c.1, c.2.1, c.2.2, r.2.2.2)) converted pts

/-! ## SignalProcessor: `process_radar_frame` and `adaptive_color_scale`
(`src/main.py`).  Matrices are total functions `Nat → Nat → ℝ` (row, column);
the frame has `ADCsamples` rows and `numLoops` columns, and all matrix
operations in the source are pointwise in that shape. -/

/-- `CLUTTER_ALPHA = 0.98` in `main.py`. -/
def CLUTTER_ALPHA : ℝ := 0.98

/-- `DB_MIN = -80` in `main.py`. -/
def DB_MIN : ℝ := -80

/-- `DB_MAX = 0` in `main.py`. -/
def DB_MAX : ℝ := 0

/-- `raw_data["RDHM"]` reshaped to `(ADCsamples, numLoops)`: row-major with
`C = numLoops` columns. -/
def reshapeRD (C : Nat) (flat : Nat → ℝ) : Nat → Nat → ℝ :=
  fun i j => flat (i * C + j)

/-- `np.fft.fftshift(m, axes=1)`: circularly roll every row right by
`C / 2`, so entry `j` comes from column `(j - C/2) mod C`. -/
def fftshiftRow (C : Nat) (m : Nat → Nat → ℝ) : Nat → Nat → ℝ :=
  fun i j => m i ((j + C - C / 2) % C)

/-- `20 * np.log10(np.abs(x) + 1e-6)`. -/
noncomputable def toDb (x : ℝ) : ℝ := 20 * Real.logb 10 (|x| + 1e-6)

/-- The `rd_db` matrix computed from the flat heatmap in
`process_radar_frame`: reshape, FFT-shift along the Doppler axis, convert to
dB. -/
noncomputable def dbMatrix (C : Nat) (flat : Nat → ℝ) : Nat → Nat → ℝ :=
  fun i j => toDb (fftshiftRow C (reshapeRD C flat) i j)

/-- `process_radar_frame(raw_data, background, min_range_bin, cfg_params)`:
returns `(rd_db_processed, background)`.  A missing `"RDHM"` key gives
`(None, background)`.  Otherwise the background is initialised to `rd_db` on
the first frame and updated by the exponential moving average afterwards;
the emitted matrix is `rd_db - background` with rows below `min_range_bin`
forced to `DB_MIN` (range gate). -/
noncomputable def process_radar_frame (C minBin : Nat) (raw : Option (Nat → ℝ))
    (background : Option (Nat → Nat → ℝ)) :
    Option (Nat → Nat → ℝ) × Option (Nat → Nat → ℝ) :=
  match raw with
  | none => (none, background)
  | some flat =>
    let rdDb := dbMatrix C flat
    let bg' :=
      match background with
      | none => rdDb
      | some b => fun i j => CLUTTER_ALPHA * b i j + (1 - CLUTTER_ALPHA) * rdDb i j
    (some (fun i j => if i < minBin then DB_MIN else rdDb i j - bg' i j), some bg')

/-- Feed the same flat heatmap `n` times through `process_radar_frame`,
starting from `background = None`; returns the last emitted matrix and the
background state. -/
noncomputable def processIter (C minBin : Nat) (flat : Nat → ℝ) :
    Nat → Option (Nat → Nat → ℝ) × Option (Nat → Nat → ℝ)
  | 0 => (none, none)
  | n + 1 =>
    process_radar_frame C minBin (some flat) (processIter C minBin flat n).2

/-- Insertion into a sorted list (ascending), used to model the sort behind
`np.percentile`. -/
noncomputable def insertSorted (x : ℝ) : List ℝ → List ℝ
  | [] => [x]
  | y :: ys => if x ≤ y then x :: y :: ys else y :: insertSorted x ys

/-- Ascending sort of a real list. -/
noncomputable def sortReal (xs : List ℝ) : List ℝ := xs.foldr insertSorted []

/-- `np.percentile(xs, q)` with the default linear interpolation:
`h = q/100 * (n-1)`, interpolate between the sorted values at ranks
`⌊h⌋` and `⌊h⌋ + 1`. -/
noncomputable def percentile (q : ℝ) (xs : List ℝ) : ℝ :=
  let s := sortReal xs
  let n := xs.length
  let h := q / 100 * ((n : ℝ) - 1)
  let lo := ⌊h⌋₊
  let a := s.getD lo 0
  let b := s.getD (min (lo + 1) (n - 1)) 0
  a + (h - (lo : ℝ)) * (b - a)

/-- `adaptive_color_scale(data, frame_count, update_rate)` of `main.py`.
`vmin`/`vmax` are assigned only inside the
`if frame_count % update_rate == 0` branch, so when `frame_count` is not a
multiple of `update_rate` the trailing `return vmin, vmax` raises
`UnboundLocalError`; that failure is modelled as `none`. -/
noncomputable def adaptive_color_scale (data : List ℝ) (frame_count update_rate : Nat) :
    Option (ℝ × ℝ) :=
  if frame_count % update_rate = 0 then
    let valid := data.filter (fun x => decide (DB_MIN + 10 < x))
    if 100 < valid.length then some (percentile 5 valid, percentile 95 valid)
    else some (DB_MIN, DB_MAX)
  else none

/-! ## Cadence extraction: `RadarStudioApp._process_and_plot`
(`src/studio.py`), from the 1-D energy-over-time signal onwards. -/

/-- `np.fft.rfftfreq(n, d=dt)` at bin `k`: `k / (n * dt)`. -/
noncomputable def rfftfreq (n : Nat) (dt : ℝ) (k : Nat) : ℝ := k / (n * dt)

/-- Magnitude of bin `k` of `np.fft.rfft(x)`:
`|Σ_t x_t · exp(-2πi·k·t/n)|`. -/
noncomputable def rfftMag (x : List ℝ) (k : Nat) : ℝ :=
  Complex.abs (∑ t ∈ Finset.range x.length,
    (x.getD t 0 : ℂ) *
      Complex.exp (-2 * Real.pi * Complex.I * k * t / x.length))

/-- `moving_energy - np.mean(moving_energy)`. -/
noncomputable def detrend (sig : List ℝ) : List ℝ :=
  sig.map (fun x => x - sig.sum / sig.length)

/-- `np.where((freqs >= 0.8) & (freqs <= 4.0))[0]`: the rfft bins
(`0 ≤ k ≤ n/2`) whose frequency lies in the human cadence band. -/
noncomputable def humanFreqMask (n : Nat) (dt : ℝ) : List Nat :=
  (List.range (n / 2 + 1)).filter
    (fun k => decide (0.8 ≤ rfftfreq n dt k) && decide (rfftfreq n dt k ≤ 4.0))

/-- Running best index of `np.argmax` semantics: scan left to right keeping
the current best, replacing it only on a strictly larger value (first
maximum wins). -/
noncomputable def bestFrom (f : Nat → ℝ) : Nat → List Nat → Nat
  | b, [] => b
  | b, k :: ks => bestFrom f (if f b < f k then k else b) ks

/-- `mask[np.argmax(fft_mag[mask])]`: the first index in `mask` carrying the
maximal magnitude, `none` when the mask is empty. -/
noncomputable def bestIndex (f : Nat → ℝ) : List Nat → Option Nat
  | [] => none
  | k :: ks => some (bestFrom f k ks)

/-- The cadence block of `_process_and_plot` on the 1-D energy signal:
detrend, take the real FFT with `dt = duration / n_frames`, restrict to the
0.8–4.0 Hz band, pick the bin of maximal magnitude; report
`(cadence_hz, cadence_hz * 60)` or `none` (the `N/A` branch). -/
noncomputable def cadenceResult (sig : List ℝ) (duration : ℝ) : Option (ℝ × ℝ) :=
  let n := sig.length
  let dt := if 0 < n then duration / n else 1
  match bestIndex (rfftMag (detrend sig)) (humanFreqMask n dt) with
  | none => none
  | some k => some (rfftfreq n dt k, rfftfreq n dt k * 60)

/-! ## ConfigCalculator: `RadarConfig._parse_file` (`src/ti_radar/config.py`)

The configuration text is a list of lines (a blank line in the file arrives
as `"\n"`).  Lines are filtered, tokenised by `str.split()`, and the
recognised directives update their dictionaries by positional index; then
the physical parameters are derived.  `float` arithmetic is carried out in
exact fractions (`Frac` below).  The numeral grammar models the plain
decimal forms `[+-]digits[.digits]` that `int()`/`float()` accept and chirp
configs use.
There is no `ConfigError` anywhere in the source; the reachable failures are
`IndexError` (missing positional token), `ValueError` (unparsable numeral),
`KeyError` (missing `profileCfg`/`frameCfg` directive) and
`ZeroDivisionError` (zero derived denominator), surfaced through
`Except PyExc`. -/

/-- An exact rational carried as an unreduced `num / den` pair of machine
integers.  Python evaluates the derived parameters in binary floating
point; the claims in scope concern which exceptions are raised and which
denominators are zero, for which exact fraction arithmetic is the faithful
idealisation (every numeral in a chirp config is an exact decimal).  The
pair representation keeps every operation a structural computation. -/
structure Frac where
  num : Int
  den : Int
deriving DecidableEq, Repr

/-- Embed an integer. -/
def Frac.ofInt (n : Int) : Frac := ⟨n, 1⟩

/-- Fraction addition. -/
def Frac.add (a b : Frac) : Frac := ⟨a.num * b.den + b.num * a.den, a.den * b.den⟩

/-- Fraction subtraction. -/
def Frac.sub (a b : Frac) : Frac := ⟨a.num * b.den - b.num * a.den, a.den * b.den⟩

/-- Fraction multiplication. -/
def Frac.mul (a b : Frac) : Frac := ⟨a.num * b.num, a.den * b.den⟩

/-- Fraction division (callers guard the divisor, as Python does). -/
def Frac.div (a b : Frac) : Frac := ⟨a.num * b.den, a.den * b.num⟩

/-- The `x == 0` test Python applies before reporting
`ZeroDivisionError`: a fraction with a nonzero denominator is zero iff its
numerator is. -/
def Frac.isZero (a : Frac) : Bool := a.num = 0

/-- `line.startswith(p)` for a single-character prefix (the only uses in
`_parse_file` are `"%"` and `"\n"`). -/
def startsWithChar (l : String) (c : Char) : Bool :=
  match l.data with
  | [] => false
  | c' :: _ => c' = c

/-- Whitespace tokeniser behind `str.split()`: split on whitespace runs,
dropping empty tokens; `acc` holds the reversed current token. -/
def splitWSAux : List Char → List Char → List (List Char)
  | [], acc => if acc = [] then [] else [acc.reverse]
  | c :: cs, acc =>
    if c.isWhitespace then
      if acc = [] then splitWSAux cs [] else acc.reverse :: splitWSAux cs []
    else splitWSAux cs (c :: acc)

/-- `str.split()`. -/
def pySplit (l : String) : List (List Char) := splitWSAux l.data []

/-- Digits of a token, as a natural number, if it is a nonempty digit
string. -/
def digitsVal? (cs : List Char) : Option Nat :=
  if cs ≠ [] ∧ cs.all Char.isDigit then
    some (cs.foldl (fun acc c => 10 * acc + (c.toNat - 48)) 0)
  else none

/-- Split a token at its decimal points (at most one for a valid float). -/
def splitOnDot : List Char → List (List Char)
  | [] => [[]]
  | c :: rest =>
    if c = '.' then [] :: splitOnDot rest
    else
      match splitOnDot rest with
      | t :: ts => (c :: t) :: ts
      | [] => [[c]]

/-- Python `int(token)` on plain decimal integers. -/
def pyInt (s : List Char) : Except PyExc Int :=
  let (sign, body) :=
    match s with
    | '-' :: rest => ((-1 : Int), rest)
    | '+' :: rest => (1, rest)
    | _ => (1, s)
  match digitsVal? body with
  | some n => .ok (sign * n)
  | none => .error .valueError

/-- Python `float(token)` on plain decimal forms `[+-]digits[.digits]`
(the forms chirp configs use). -/
def pyFloat (s : List Char) : Except PyExc Frac :=
  let (sign, body) :=
    match s with
    | '-' :: rest => ((-1 : Int), rest)
    | '+' :: rest => (1, rest)
    | _ => (1, s)
  match splitOnDot body with
  | [ip] =>
    match digitsVal? ip with
    | some n => .ok ⟨sign * n, 1⟩
    | none => .error .valueError
  | [ip, fp] =>
    if ip.all Char.isDigit ∧ fp.all Char.isDigit ∧ (ip ≠ [] ∨ fp ≠ []) then
      let ipv := ip.foldl (fun acc c => 10 * acc + (c.toNat - 48)) (0 : Nat)
      let fpv := fp.foldl (fun acc c => 10 * acc + (c.toNat - 48)) (0 : Nat)
      .ok ⟨sign * (ipv * 10 ^ fp.length + fpv), (10 : Int) ^ fp.length⟩
    else .error .valueError
  | _ => .error .valueError

/-- `val[i]` on a Python list: `IndexError` out of range. -/
def pyIndex (val : List (List Char)) (i : Nat) : Except PyExc (List Char) :=
  if h : i < val.length then .ok (val.get ⟨i, h⟩) else .error .indexError

/-- `int(val[i])`. -/
def pyIntAt (val : List (List Char)) (i : Nat) : Except PyExc Int := do
  pyInt (← pyIndex val i)

/-- `float(val[i])`. -/
def pyFloatAt (val : List (List Char)) (i : Nat) : Except PyExc Frac := do
  pyFloat (← pyIndex val i)

/-- Structural helper for the population count (`fuel ≥ n` halvings always
suffice). -/
def popCountFuel : Nat → Nat → Nat
  | 0, _ => 0
  | fuel + 1, n => if n = 0 then 0 else n % 2 + popCountFuel fuel (n / 2)

/-- `bin(n).count("1")`: population count. -/
def popCount (n : Nat) : Nat := popCountFuel n n

/-- The `self.chirpProf` dictionary once `profileCfg` has been seen (a
single directive sets all keys at once, so the keys are present or absent
together). -/
structure ChirpProf where
  startFreq : Frac
  idleTime : Frac
  adcStartTime : Frac
  rampEndTime : Frac
  freqSlope : Frac
  numADCsamples : Int
  sampleRate : Frac
deriving DecidableEq, Repr

/-- The `self.frameCfg` dictionary once `frameCfg` has been seen. -/
structure FrameCfgRec where
  chirpStartInd : Int
  chirpEndInd : Int
  numLoops : Int
  periodicity : Int
deriving DecidableEq, Repr

/-- State accumulated by the directive scan: the `antennas` dict (with its
`0` defaults) and the two optional directive dictionaries. -/
structure ScanState where
  txAntennas : Int
  rxAntenna : Int
  chirpProf : Option ChirpProf
  frameCfg : Option FrameCfgRec
deriving DecidableEq, Repr

/-- Initial scan state: `antennas = {'txAntennas': 0, 'rxAntenna': 0}`,
empty `chirpProf` and `frameCfg`. -/
def initScanState : ScanState :=
  { txAntennas := 0, rxAntenna := 0, chirpProf := none, frameCfg := none }

/-- One iteration of the `for l in lines` scan: tokenise, skip empty token
lists, and update the dictionary of a recognised directive (token values are
evaluated in source order, so the first bad token raises). -/
def scanLine (st : ScanState) (l : String) : Except PyExc ScanState := do
  let val := pySplit l
  match val with
  | [] => return st
  | v0 :: _ =>
    if v0 = "channelCfg".data then do
      let tx ← pyIntAt val 1
      let rx ← pyIntAt val 2
      return { st with txAntennas := tx, rxAntenna := rx }
    else if v0 = "profileCfg".data then do
      let startFreq ← pyFloatAt val 2
      let idleTime ← pyFloatAt val 3
      let adcStartTime ← pyFloatAt val 4
      let rampEndTime ← pyFloatAt val 5
      let freqSlope ← pyFloatAt val 8
      let numADCsamples ← pyIntAt val 10
      let sampleRate ← pyFloatAt val 11
      return { st with chirpProf := some (ChirpProf.mk startFreq idleTime
        adcStartTime rampEndTime freqSlope numADCsamples sampleRate) }
    else if v0 = "frameCfg".data then do
      let chirpStartInd ← pyIntAt val 1
      let chirpEndInd ← pyIntAt val 2
      let numLoops ← pyIntAt val 3
      let periodicity ← pyIntAt val 5
      return { st with frameCfg := some (FrameCfgRec.mk chirpStartInd
        chirpEndInd numLoops periodicity) }
    else
      return st

/-- The comment/blank filter and directive scan of `_parse_file`. -/
def scanPhase (rawLines : List String) : Except PyExc ScanState :=
  (rawLines.filter
    (fun l => !(startsWithChar l '%') && !(startsWithChar l '\n'))).foldlM
    scanLine initScanState

/-- Python `a / b` on floats: `ZeroDivisionError` when `b == 0`. -/
def pyDiv (a b : Frac) : Except PyExc Frac :=
  if b.isZero then .error .zeroDivisionError else .ok (a.div b)

/-- The immutable result of `RadarConfig._parse_file`. -/
structure ConfigRec where
  txAntennas : Nat
  rxAntennas : Nat
  Nv : Nat
  BW : Frac
  rangeRes : Frac
  rangeMax : Frac
  numChirps : Int
  dopRes : Frac
  numLoops : Int
  dopMax : Frac
  T : Int
  ADCsamples : Int
deriving DecidableEq, Repr

/-- `RadarConfig._parse_file`: scan the lines, then derive the physical
parameters in source order.  A missing `profileCfg` raises `KeyError` at the
first `self.chirpProf[...]` access (the `BW` line); a missing `frameCfg`
raises `KeyError` at the `numChirps` line; each Python float division raises
`ZeroDivisionError` on a zero denominator.  A missing `channelCfg` does not
raise: the `antennas` dict defaults give popcounts of `0`. -/
def RadarConfig_parse (rawLines : List String) : Except PyExc ConfigRec := do
  let st ← scanPhase rawLines
  let txAntennas := popCount st.txAntennas.natAbs
  let rxAntennas := popCount st.rxAntenna.natAbs
  let Nv := txAntennas * rxAntennas
  let cp ← match st.chirpProf with
    | some cp => Except.ok cp
    | none => Except.error PyExc.keyError
  let bw0 ← pyDiv (cp.freqSlope.mul (Frac.ofInt cp.numADCsamples)) cp.sampleRate
  let BW := bw0.mul (Frac.ofInt 1000000000)
  let rangeRes ← pyDiv (Frac.ofInt 300000000) ((Frac.ofInt 2).mul BW)
  let rangeMax := rangeRes.mul ((Frac.ofInt cp.numADCsamples).sub (Frac.ofInt 1))
  let fc ← match st.frameCfg with
    | some fc => Except.ok fc
    | none => Except.error PyExc.keyError
  let numChirps := (fc.chirpEndInd - fc.chirpStartInd + 1) * fc.numLoops
  let totalChirpTime := (cp.idleTime.add cp.rampEndTime).mul ⟨1, 1000000⟩
  let dopRes ← pyDiv (Frac.ofInt 300000000)
    ((((Frac.ofInt 2).mul cp.startFreq).mul (Frac.ofInt 1000000000)).mul
      totalChirpTime |>.mul (Frac.ofInt numChirps))
  let numLoops := fc.numLoops
  let dopMax := ((Frac.ofInt numLoops).mul dopRes).div (Frac.ofInt 2)
  return { txAntennas, rxAntennas, Nv, BW, rangeRes, rangeMax, numChirps,
           dopRes, numLoops, dopMax, T := fc.periodicity,
           ADCsamples := cp.numADCsamples }

/-- `Except` success test. -/
def exceptOk {α : Type} (x : Except PyExc α) : Bool :=
  match x with
  | .ok _ => true
  | .error _ => false

/-- The `.ok` value of an `Except`, if any. -/
def okValue {α : Type} : Except PyExc α → Option α
  | .ok a => some a
  | .error _ => none

/-! ## Synthetic wire data (test vectors for the concrete instances) -/

/-- A 40-byte standard frame header: magic word, version 1, the given total
length, platform 0, the given frame number, CPU time 0, zero detected
objects, the given TLV count, sub-frame 0 — all little-endian. -/
def sampleHeader (totalLen frameNum numTlvs : Nat) : List Nat :=
  UART_MAGIC_WORD ++ le4 1 ++ le4 totalLen ++ le4 0 ++ le4 frameNum ++
    le4 0 ++ le4 0 ++ le4 numTlvs ++ le4 0

/-- Wire encoding of one TLV `(type, payload)`: 8-byte sub-header then the
payload bytes. -/
def encTlv (t : Nat × List Nat) : List Nat := le4 t.1 ++ le4 t.2.length ++ t.2

/-- A configuration text with valid `profileCfg` and `frameCfg` lines but no
`channelCfg` line at all. -/
def cfgNoChannel : List String :=
  ["profileCfg 0 60 30 25 59 0 0 54 1 96 2950 2 1 36",
   "frameCfg 0 2 32 0 100 1 0"]

/-- A configuration text whose only directive is a `frameCfg` line (no
`profileCfg`). -/
def cfgNoProfile : List String := ["frameCfg 0 2 32 0 100 1 0"]

/-- The divisor of the `rangeRes` line, `2 * BW`, as `_parse_file`
evaluates it. -/
def bwDenom (cp : ChirpProf) : Frac :=
  (Frac.ofInt 2).mul
    (((cp.freqSlope.mul (Frac.ofInt cp.numADCsamples)).div cp.sampleRate).mul
      (Frac.ofInt 1000000000))

/-- The divisor of the `dopRes` line,
`2 * startFreq * 1e9 * total_chirp_time * numChirps`, as `_parse_file`
evaluates it. -/
def dopDenom (cp : ChirpProf) (fc : FrameCfgRec) : Frac :=
  (((Frac.ofInt 2).mul cp.startFreq).mul (Frac.ofInt 1000000000)).mul
      ((cp.idleTime.add cp.rampEndTime).mul ⟨1, 1000000⟩) |>.mul
    (Frac.ofInt ((fc.chirpEndInd - fc.chirpStartInd + 1) * fc.numLoops))

/-! ## ConfigCalculator, second variant: `cfg_params.__init__`
(`src/radar/utils/parseCFG.py`, the parser used by `main.py`)

Same directives and token positions as `RadarConfig._parse_file`, but:
lines are recognised by `l.startswith(directive)` on the raw line rather
than by their first token; the `antennas` dict starts **empty** (no `0`
defaults), so a missing `channelCfg` raises `KeyError` at
`antennas['txAntennas']`; the extra `BW2` and `chirpTime` quantities are
derived; and `print_summary()` at the end of `__init__` evaluates
`1e3 / self.T` inside an f-string.  The `for _ in val:` loops re-apply the
same dictionary update once per token; the net state and the first raised
exception equal those of a single update, which is how the scan is
modelled. -/

/-- `pattern.isPrefixOf line` on character lists (structural
`l.startswith(p)`). -/
def prefAux : List Char → List Char → Bool
  | [], _ => true
  | _ :: _, [] => false
  | p :: ps, c :: cs => if p = c then prefAux ps cs else false

/-- `l.startswith(p)` for a multi-character prefix. -/
def startsWithPref (l p : String) : Bool := prefAux p.data l.data

/-- The comment/blank line filter shared by both config parsers. -/
def cfgFilter (rawLines : List String) : List String :=
  rawLines.filter (fun l => !(startsWithChar l '%') && !(startsWithChar l '\n'))

/-- The `antennas` loop of `cfg_params.__init__`: the dict is empty until a
`channelCfg` line is seen, then holds the two antenna masks (last line
wins). -/
def antennasScan (lines : List String) : Except PyExc (Option (Int × Int)) :=
  lines.foldlM
    (fun acc l =>
      if startsWithPref l "channelCfg" then do
        let val := pySplit l
        let tx ← pyIntAt val 1
        let rx ← pyIntAt val 2
        pure (some (tx, rx))
      else pure acc)
    none

/-- The `chirpProf` loop of `cfg_params.__init__` (same positional fields
as `_parse_file`). -/
def profileScan (lines : List String) : Except PyExc (Option ChirpProf) :=
  lines.foldlM
    (fun acc l =>
      if startsWithPref l "profileCfg" then do
        let val := pySplit l
        let startFreq ← pyFloatAt val 2
        let idleTime ← pyFloatAt val 3
        let adcStartTime ← pyFloatAt val 4
        let rampEndTime ← pyFloatAt val 5
        let freqSlope ← pyFloatAt val 8
        let numADCsamples ← pyIntAt val 10
        let sampleRate ← pyFloatAt val 11
        pure (some (ChirpProf.mk startFreq idleTime adcStartTime rampEndTime
          freqSlope numADCsamples sampleRate))
      else pure acc)
    none

/-- The `frameCfg` loop of `cfg_params.__init__`. -/
def frameScan (lines : List String) : Except PyExc (Option FrameCfgRec) :=
  lines.foldlM
    (fun acc l =>
      if startsWithPref l "frameCfg" then do
        let val := pySplit l
        let chirpStartInd ← pyIntAt val 1
        let chirpEndInd ← pyIntAt val 2
        let numLoops ← pyIntAt val 3
        let periodicity ← pyIntAt val 5
        pure (some (FrameCfgRec.mk chirpStartInd chirpEndInd numLoops
          periodicity))
      else pure acc)
    none

/-- The divisor of the `dopRes` line of `cfg_params.__init__`:
`2 * startFreq * 1e9 * (idleTime + rampEndTime) * 1e-6 * numChirps`, in its
source association. -/
def dopDenomCfg (cp : ChirpProf) (fc : FrameCfgRec) : Frac :=
  ((((Frac.ofInt 2).mul cp.startFreq).mul (Frac.ofInt 1000000000)).mul
        (cp.idleTime.add cp.rampEndTime) |>.mul ⟨1, 1000000⟩).mul
    (Frac.ofInt ((fc.chirpEndInd - fc.chirpStartInd + 1) * fc.numLoops))

/-- The result of `cfg_params.__init__`. -/
structure CfgParamsRec where
  txAntennas : Nat
  rxAntennas : Nat
  Nv : Nat
  BW : Frac
  BW2 : Frac
  chirpTime : Frac
  rangeRes : Frac
  rangeMax : Frac
  numChirps : Int
  dopRes : Frac
  numLoops : Int
  dopMax : Frac
  T : Int
  ADCsamples : Int
deriving DecidableEq, Repr

/-- `cfg_params.__init__`: filter lines, run the three directive loops in
source order interleaved with the derived computations.  A missing
`channelCfg` raises `KeyError` at `antennas['txAntennas']`; a missing
`profileCfg`/`frameCfg` raises `KeyError` at the first access of its dict;
float divisions raise `ZeroDivisionError` on zero denominators; the final
`print_summary()` call evaluates `1e3 / self.T`. -/
def cfg_params_init (rawLines : List String) : Except PyExc CfgParamsRec := do
  let lines := cfgFilter rawLines
  let ant ← antennasScan lines
  let a ← match ant with
    | some a => Except.ok a
    | none => Except.error PyExc.keyError
  let txAntennas := popCount a.1.natAbs
  let rxAntennas := popCount a.2.natAbs
  let Nv := txAntennas * rxAntennas
  let cpOpt ← profileScan lines
  let cp ← match cpOpt with
    | some cp => Except.ok cp
    | none => Except.error PyExc.keyError
  let bw0 ← pyDiv (cp.freqSlope.mul (Frac.ofInt cp.numADCsamples)) cp.sampleRate
  let BW := bw0.mul (Frac.ofInt 1000000000)
  let BW2 := (cp.freqSlope.mul cp.rampEndTime).mul ⟨1, 1000⟩
  let chirpTime ← pyDiv ((Frac.ofInt 1000).mul (Frac.ofInt cp.numADCsamples))
    cp.sampleRate
  let rangeRes ← pyDiv (Frac.ofInt 300000000) ((Frac.ofInt 2).mul BW)
  let rangeMax := rangeRes.mul ((Frac.ofInt cp.numADCsamples).sub (Frac.ofInt 1))
  let fcOpt ← frameScan lines
  let fc ← match fcOpt with
    | some fc => Except.ok fc
    | none => Except.error PyExc.keyError
  let numChirps := (fc.chirpEndInd - fc.chirpStartInd + 1) * fc.numLoops
  let dopRes ← pyDiv (Frac.ofInt 300000000)
    (((((Frac.ofInt 2).mul cp.startFreq).mul (Frac.ofInt 1000000000)).mul
        (cp.idleTime.add cp.rampEndTime) |>.mul ⟨1, 1000000⟩).mul
      (Frac.ofInt numChirps))
  let numLoops := fc.numLoops
  let dopMax := ((Frac.ofInt numLoops).mul dopRes).div (Frac.ofInt 2)
  let T := fc.periodicity
  let ADCsamples := cp.numADCsamples
  let _ ← pyDiv (Frac.ofInt 1000) (Frac.ofInt T)
  return { txAntennas, rxAntennas, Nv, BW, BW2, chirpTime, rangeRes,
           rangeMax, numChirps, dopRes, numLoops, dopMax, T, ADCsamples }

/-! ## Theorems -/

/-! ### Frame synchronizer lemmas -/

theorem magic_take_succ {i : Nat} (h : i < 8) :
    UART_MAGIC_WORD.take i ++ [magicByte i] = UART_MAGIC_WORD.take (i + 1) := by
  interval_cases i <;> rfl

/-- Whenever the hunt loop succeeds from a reachable state (candidate buffer
equal to the matched magic prefix), the returned buffer is the whole magic
word. -/
theorem hunt_sound :
    ∀ (s : List Nat) (i : Nat) (fd m r : List Nat), i < 8 →
      fd = UART_MAGIC_WORD.take i → hunt s i fd = some (m, r) →
      m = UART_MAGIC_WORD := by
  intro s
  induction s with
  | nil => intro i fd m r _ _ h; simp [hunt] at h
  | cons b s ih =>
    intro i fd m r hi hfd h
    rw [hunt] at h
    by_cases hb : b = magicByte i
    · rw [if_pos hb] at h
      by_cases h8 : i + 1 = 8
      · rw [if_pos h8] at h
        have hmagic : fd ++ [b] = UART_MAGIC_WORD := by
          rw [hfd, hb, magic_take_succ hi, h8]; rfl
        simp only [Option.some.injEq, Prod.mk.injEq] at h
        rw [← h.1]; exact hmagic
      · rw [if_neg h8] at h
        exact ih (i + 1) (fd ++ [b]) m r (by omega)
          (by rw [hfd, hb, magic_take_succ hi]) h
    · rw [if_neg hb] at h
      by_cases hb0 : b = magicByte 0
      · rw [if_pos hb0] at h
        exact ih 1 [b] m r (by omega) (by rw [hb0]; rfl) h
      · rw [if_neg hb0] at h
        exact ih 0 [] m r (by omega) rfl h

/-- Hunting on a stream that begins with the magic word consumes exactly the
magic word. -/
theorem hunt_of_magic_prefix (rest : List Nat) :
    hunt (UART_MAGIC_WORD ++ rest) 0 [] = some (UART_MAGIC_WORD, rest) := rfl

/-- Claim C2: in the magic-word scan, a stream interval
`02 01 02 01 04 03 06 05 08 07` (false start `02 01` directly followed by
the real magic word) always ends with the true magic word matched — the one
starting at the third byte of the interval — from every reachable scan state
entering the interval; and on any mismatching byte the scan restarts the
candidate at index 1 when the byte equals `magic[0]`, and resets to index 0
(dropping nothing else) otherwise. -/
theorem claim_c2_overlap :
    (∀ (post : List Nat) (i : Nat), i < 8 →
      hunt (([2, 1] ++ UART_MAGIC_WORD) ++ post) i (UART_MAGIC_WORD.take i)
        = some (UART_MAGIC_WORD, post)) ∧
    (∀ (s : List Nat) (b i : Nat) (fd : List Nat),
      b ≠ magicByte i → b = magicByte 0 →
      hunt (b :: s) i fd = hunt s 1 [b]) ∧
    (∀ (s : List Nat) (b i : Nat) (fd : List Nat),
      b ≠ magicByte i → b ≠ magicByte 0 →
      hunt (b :: s) i fd = hunt s 0 []) := by
  refine ⟨?_, ?_, ?_⟩
  · intro post i hi
    interval_cases i <;> rfl
  · intro s b i fd hb hb0
    rw [hunt, if_neg hb, if_pos hb0]
  · intro s b i fd hb hb0
    rw [hunt, if_neg hb, if_neg hb0]

/-- Witness for C2 at a concrete stream, scan state, and mismatch bytes. -/
theorem claim_c2_overlap_witness :
    ((0 : Nat) < 8 ∧
      hunt (([2, 1] ++ UART_MAGIC_WORD) ++ [9, 9]) 0 (UART_MAGIC_WORD.take 0)
        = some (UART_MAGIC_WORD, [9, 9])) ∧
    ((2 : Nat) ≠ magicByte 3 ∧ (2 : Nat) = magicByte 0 ∧
      hunt (2 :: [7]) 3 [2, 1, 4] = hunt [7] 1 [2]) ∧
    ((9 : Nat) ≠ magicByte 3 ∧ (9 : Nat) ≠ magicByte 0 ∧
      hunt (9 :: [7]) 3 [2, 1, 4] = hunt [7] 0 []) :=
  ⟨⟨by decide, claim_c2_overlap.1 [9, 9] 0 (by decide)⟩,
   ⟨by decide, by decide,
     claim_c2_overlap.2.1 [7] 2 3 [2, 1, 4] (by decide) (by decide)⟩,
   ⟨by decide, by decide,
     claim_c2_overlap.2.2 [7] 9 3 [2, 1, 4] (by decide) (by decide)⟩⟩

/-! ### Payload read loop and frame reader lemmas -/

theorem readChunks_single (need : Nat) (s : List Nat) (h : need ≤ s.length) :
    readChunks need [s] = some (s.take need) := by
  by_cases h0 : need = 0
  · subst h0; simp [readChunks]
  · have hlen : (s.take need).length = need := by
      rw [List.length_take]; omega
    have hne : ¬ (s.take need).isEmpty = true := by
      intro hc
      rw [List.isEmpty_iff] at hc
      rw [hc] at hlen
      exact h0 hlen.symm
    rw [readChunks, if_neg h0]
    show (if (s.take need).isEmpty = true then none
          else (readChunks (need - (s.take need).length) []).map
            (fun p => s.take need ++ p)) = some (s.take need)
    rw [if_neg hne, hlen, Nat.sub_self]
    simp [readChunks]

/-- The payload loop either aborts or returns exactly the requested number
of bytes, whatever the chunk deliveries were. -/
theorem readChunks_length :
    ∀ (script : List (List Nat)) (need : Nat) (p : List Nat),
      readChunks need script = some p → p.length = need := by
  intro script
  induction script with
  | nil =>
    intro need p h
    rw [readChunks] at h
    by_cases h0 : need = 0
    · rw [if_pos h0] at h
      simp only [Option.some.injEq] at h
      rw [← h]; simpa using h0.symm
    · rw [if_neg h0] at h; exact absurd h (by simp)
  | cons c cs ih =>
    intro need p h
    rw [readChunks] at h
    by_cases h0 : need = 0
    · rw [if_pos h0] at h
      simp only [Option.some.injEq] at h
      rw [← h]; simpa using h0.symm
    · rw [if_neg h0] at h
      by_cases hc : (c.take need).isEmpty = true
      · rw [if_pos hc] at h; exact absurd h (by simp)
      · rw [if_neg hc] at h
        rw [Option.map_eq_some'] at h
        obtain ⟨q, hq, hp⟩ := h
        have hql := ih _ _ hq
        have hcl : (c.take need).length ≤ need := by
          rw [List.length_take]; omega
        rw [← hp, List.length_append, hql]
        omega

theorem wellFormed_facts {f : List Nat} (hf : wellFormedFrame f = true) :
    f.take 8 = UART_MAGIC_WORD ∧ leNat ((f.drop 12).take 4) = f.length ∧
      16 ≤ f.length ∧ f.length ≤ 100000 ∧ 40 ≤ f.length := by
  simp only [wellFormedFrame, Bool.and_eq_true, beq_iff_eq,
    decide_eq_true_eq] at hf
  exact ⟨hf.1.1.1.1.1.2, hf.1.1.1.1.2, hf.1.1.1.2, hf.1.1.2, hf.1.2⟩

/-- `read_raw_frame` on a stream that starts with a well-formed frame
returns exactly that frame and leaves exactly the rest of the stream. -/
theorem read_raw_frame_wellFormed (f : List Nat) (hf : wellFormedFrame f = true)
    (rest : List Nat) : read_raw_frame (f ++ rest) = (some f, rest) := by
  obtain ⟨h8, hlen, h16, h100k, h40⟩ := wellFormed_facts hf
  have key : f ++ rest = UART_MAGIC_WORD ++ (f.drop 8 ++ rest) := by
    conv_lhs => rw [← List.take_append_drop 8 f, h8]
    rw [List.append_assoc]
  rw [read_raw_frame, key, hunt_of_magic_prefix]
  dsimp only
  have hvb : (f.drop 8 ++ rest).take 4 = (f.drop 8).take 4 :=
    List.take_append_of_le_length (by rw [List.length_drop]; omega)
  have hs2 : (f.drop 8 ++ rest).drop 4 = f.drop 12 ++ rest := by
    rw [List.drop_append_of_le_length (by rw [List.length_drop]; omega)]
    rw [List.drop_drop]
  have hlb : (f.drop 12 ++ rest).take 4 = (f.drop 12).take 4 :=
    List.take_append_of_le_length (by rw [List.length_drop]; omega)
  have hs3 : (f.drop 12 ++ rest).drop 4 = f.drop 16 ++ rest := by
    rw [List.drop_append_of_le_length (by rw [List.length_drop]; omega)]
    rw [List.drop_drop]
  rw [hvb, hs2, hlb, hs3]
  have g1 : ¬(((f.drop 8).take 4).length < 4 ∨ ((f.drop 12).take 4).length < 4) := by
    rw [List.length_take, List.length_take, List.length_drop, List.length_drop]
    omega
  rw [if_neg g1, hlen]
  have g2 : ¬(100000 < f.length ∨ f.length < 16) := by omega
  rw [if_neg g2]
  have hneed : f.length - 16 ≤ (f.drop 16 ++ rest).length := by
    rw [List.length_append, List.length_drop]; omega
  rw [readChunks_single _ _ hneed]
  have htake : (f.drop 16 ++ rest).take (f.length - 16) = f.drop 16 := by
    rw [List.take_append_of_le_length (List.length_drop 16 f).ge]
    exact List.take_of_length_le (by rw [List.length_drop])
  have hdrop : (f.drop 16 ++ rest).drop (f.length - 16) = rest :=
    List.drop_left' (by rw [List.length_drop])
  rw [htake, hdrop]
  dsimp only
  have hre : UART_MAGIC_WORD ++ (f.drop 8).take 4 ++ (f.drop 12).take 4 ++
      f.drop 16 = f := by
    rw [← h8, List.append_assoc, List.append_assoc]
    rw [show (f.drop 12).take 4 ++ f.drop 16 = f.drop 12 by
      simpa using List.drop_take_append_drop f 12 4]
    rw [show (f.drop 8).take 4 ++ f.drop 12 = f.drop 8 by
      simpa using List.drop_take_append_drop f 8 4]
    exact List.take_append_drop 8 f
  rw [hre]

/-! ### TLV parser lemmas -/

theorem applyTlv_error (r : FrameRecord) (t : Nat) (p : List Nat) :
    (applyTlv r t p).error = r.error := by
  unfold applyTlv parseDopplerTLV
  repeat' split
  all_goals rfl

theorem applyTlv_frameNum (r : FrameRecord) (t : Nat) (p : List Nat) :
    (applyTlv r t p).frameNum = r.frameNum := by
  unfold applyTlv parseDopplerTLV
  repeat' split
  all_goals rfl

theorem processTlvs_error :
    ∀ (n : Nat) (data : List Nat) (r : FrameRecord),
      (processTlvs n data r).error = r.error := by
  intro n
  induction n with
  | zero => intro data r; rfl
  | succ n ih =>
    intro data r
    rw [processTlvs]
    split
    · rfl
    · dsimp only
      split
      · rfl
      · rw [ih, applyTlv_error]

theorem processTlvs_frameNum :
    ∀ (n : Nat) (data : List Nat) (r : FrameRecord),
      (processTlvs n data r).frameNum = r.frameNum := by
  intro n
  induction n with
  | zero => intro data r; rfl
  | succ n ih =>
    intro data r
    rw [processTlvs]
    split
    · rfl
    · dsimp only
      split
      · rfl
      · rw [ih, applyTlv_frameNum]

theorem parse_header_ok (f : List Nat) (h40 : 40 ≤ f.length) :
    (parse_standard_frame f).error = 0 ∧
      (parse_standard_frame f).frameNum = some (frameNumOf f) := by
  unfold parse_standard_frame
  rw [if_neg (by simp only [frameHeaderLen]; omega)]
  exact ⟨processTlvs_error _ _ _, processTlvs_frameNum _ _ _⟩

/-- Driving `read_raw_frame` over a concatenation of well-formed frames
recovers exactly those frames. -/
theorem readFrames_concat :
    ∀ (fs : List (List Nat)), (∀ f ∈ fs, wellFormedFrame f = true) →
      readFrames fs.length fs.flatten = fs := by
  intro fs
  induction fs with
  | nil => intro _; rfl
  | cons f fs ih =>
    intro h
    show readFrames (fs.length + 1) ((f :: fs).flatten) = f :: fs
    rw [List.flatten_cons, readFrames,
      read_raw_frame_wellFormed f (h f (List.mem_cons_self f fs)) fs.flatten]
    dsimp only
    rw [ih (fun g hg => h g (List.mem_cons_of_mem f hg))]

/-- Claim C1: a byte stream that is the concatenation of `N` well-formed
frames decodes, by repeated `read_raw_frame` / `parse_standard_frame`
calls, to exactly `N` frame records whose `frameNum` fields are the frame
numbers written into the stream, in order. -/
theorem claim_c1_roundtrip (fs : List (List Nat)) (_hN : 0 < fs.length)
    (hwf : ∀ f ∈ fs, wellFormedFrame f = true) :
    ((readFrames fs.length fs.flatten).map parse_standard_frame).length
        = fs.length ∧
    ((readFrames fs.length fs.flatten).map parse_standard_frame).map
        FrameRecord.frameNum
      = fs.map (fun f => some (frameNumOf f)) := by
  rw [readFrames_concat fs hwf]
  refine ⟨List.length_map _ _, ?_⟩
  rw [List.map_map]
  apply List.map_congr_left
  intro f hf
  have h40 : 40 ≤ f.length := (wellFormed_facts (hwf f hf)).2.2.2.2
  exact (parse_header_ok f h40).2

/-- Witness for C1: a two-frame stream (one frame carrying a heatmap TLV,
one bare frame) decodes to two records with frame numbers 3 and 8. -/
theorem claim_c1_roundtrip_witness :
    (0 < ([sampleHeader 50 3 1 ++ encTlv (5, [9, 0]), sampleHeader 40 8 0]
        : List (List Nat)).length ∧
      ∀ f ∈ ([sampleHeader 50 3 1 ++ encTlv (5, [9, 0]), sampleHeader 40 8 0]
        : List (List Nat)), wellFormedFrame f = true) ∧
    ((readFrames ([sampleHeader 50 3 1 ++ encTlv (5, [9, 0]),
          sampleHeader 40 8 0] : List (List Nat)).length
        ([sampleHeader 50 3 1 ++ encTlv (5, [9, 0]),
          sampleHeader 40 8 0] : List (List Nat)).flatten).map
        parse_standard_frame).map FrameRecord.frameNum
      = ([sampleHeader 50 3 1 ++ encTlv (5, [9, 0]), sampleHeader 40 8 0]
          : List (List Nat)).map (fun f => some (frameNumOf f)) :=
  ⟨⟨by decide, by decide⟩,
    (claim_c1_roundtrip _ (by decide) (by decide)).2⟩

/-! ### Truncated TLV tails (C4) -/

theorem leNat_le4 (n : Nat) (h : n < 2 ^ 32) : leNat (le4 n) = n := by
  simp only [le4, leNat]
  omega

/-- Processing a body that starts with complete TLV encodings folds those
TLVs into the record and continues on the remaining bytes with the
remaining iteration count. -/
theorem processTlvs_complete :
    ∀ (ts : List (Nat × List Nat)) (n : Nat) (tailB : List Nat)
      (r : FrameRecord),
      (∀ t ∈ ts, t.1 < 2 ^ 32 ∧ t.2.length < 2 ^ 32) → ts.length ≤ n →
      processTlvs n ((ts.map encTlv).flatten ++ tailB) r
        = processTlvs (n - ts.length) tailB
            (ts.foldl (fun r t => applyTlv r t.1 t.2) r) := by
  intro ts
  induction ts with
  | nil => intro n tailB r _ _; simp
  | cons t ts ih =>
    intro n tailB r hbound hlen
    obtain ⟨m, rfl⟩ : ∃ m, n = m + 1 := by
      refine ⟨n - 1, ?_⟩
      have := hlen
      simp only [List.length_cons] at this
      omega
    have ht := hbound t (List.mem_cons_self t ts)
    set A := le4 t.1 ++ le4 t.2.length with hA
    set rest' := t.2 ++ ((ts.map encTlv).flatten ++ tailB) with hrest
    have hA8 : A.length = 8 := by simp [hA, le4]
    have hbody : ((t :: ts).map encTlv).flatten ++ tailB = A ++ rest' := by
      simp [encTlv, hA, hrest, List.append_assoc]
    rw [hbody, processTlvs]
    have hlong : ¬ (A ++ rest').length < 8 := by
      rw [List.length_append, hA8]; omega
    rw [if_neg hlong]
    dsimp only
    have htype : (A ++ rest').take 4 = le4 t.1 := by
      rw [List.take_append_of_le_length (by rw [hA8]; omega), hA,
        List.take_append_of_le_length (by simp [le4]),
        List.take_of_length_le (by simp [le4])]
    have hdrop4 : (A ++ rest').drop 4 = le4 t.2.length ++ rest' := by
      rw [List.drop_append_of_le_length (by rw [hA8]; omega), hA,
        List.drop_left' (by simp [le4])]
    have hlenf : (le4 t.2.length ++ rest').take 4 = le4 t.2.length := by
      rw [List.take_append_of_le_length (by simp [le4]),
        List.take_of_length_le (by simp [le4])]
    have hdrop8 : (A ++ rest').drop 8 = rest' := List.drop_left' hA8
    rw [htype, hdrop4, hlenf, hdrop8, leNat_le4 _ ht.1, leNat_le4 _ ht.2]
    have hshort : ¬ rest'.length < t.2.length := by
      rw [hrest, List.length_append]; omega
    rw [if_neg hshort]
    rw [hrest, List.take_append_of_le_length (le_refl t.2.length),
      List.take_of_length_le (le_refl t.2.length),
      List.drop_left' rfl]
    rw [ih m tailB (applyTlv r t.1 t.2)
      (fun u hu => hbound u (List.mem_cons_of_mem t hu))
      (by simp only [List.length_cons] at hlen; omega)]
    simp

/-- When the remaining bytes cannot hold a TLV sub-header or its declared
payload, a positive remaining iteration count stops immediately. -/
theorem processTlvs_shortTail (tailB : List Nat)
    (h : tailB.length < 8 ∨ (tailB.drop 8).length < leNat ((tailB.drop 4).take 4)) :
    ∀ (k : Nat) (r : FrameRecord), processTlvs (k + 1) tailB r = r := by
  intro k r
  rw [processTlvs]
  rcases h with h | h
  · rw [if_pos h]
  · by_cases h8 : tailB.length < 8
    · rw [if_pos h8]
    · rw [if_neg h8]
      dsimp only
      rw [if_pos h]

/-- Claim C4: a frame that declares more TLVs than its buffer holds is
parsed by decoding exactly the complete leading TLVs: the parse stops at
the first insufficient TLV, returns normally, and keeps every field from
the earlier TLVs (the result is the fold of the TLV dispatch over the
complete TLVs), with `error = 0` and the header's frame number. -/
theorem claim_c4_truncated_tlvs (hdr : List Nat) (ts : List (Nat × List Nat))
    (tailB : List Nat)
    (hh : hdr.length = 40)
    (hn : ts.length < leNat ((hdr.drop 32).take 4))
    (hts : ∀ t ∈ ts, t.1 < 2 ^ 32 ∧ t.2.length < 2 ^ 32)
    (htail : tailB.length < 8 ∨
      (tailB.drop 8).length < leNat ((tailB.drop 4).take 4)) :
    parse_standard_frame (hdr ++ ((ts.map encTlv).flatten ++ tailB))
      = ts.foldl (fun r t => applyTlv r t.1 t.2)
          { initRecord with
            frameNum := some (leNat ((hdr.drop 20).take 4)) } ∧
    (parse_standard_frame (hdr ++ ((ts.map encTlv).flatten ++ tailB))).error
      = 0 := by
  have hlen : 40 ≤ (hdr ++ ((ts.map encTlv).flatten ++ tailB)).length := by
    rw [List.length_append, hh]; omega
  constructor
  · unfold parse_standard_frame
    rw [if_neg (by simp only [frameHeaderLen]; omega)]
    have h20 : ((hdr ++ ((ts.map encTlv).flatten ++ tailB)).drop 20).take 4
        = (hdr.drop 20).take 4 := by
      rw [List.drop_append_of_le_length (by omega),
        List.take_append_of_le_length (by rw [List.length_drop]; omega)]
    have h32 : ((hdr ++ ((ts.map encTlv).flatten ++ tailB)).drop 32).take 4
        = (hdr.drop 32).take 4 := by
      rw [List.drop_append_of_le_length (by omega),
        List.take_append_of_le_length (by rw [List.length_drop]; omega)]
    have h40 : (hdr ++ ((ts.map encTlv).flatten ++ tailB)).drop frameHeaderLen
        = (ts.map encTlv).flatten ++ tailB := by
      simp only [frameHeaderLen]
      exact List.drop_left' hh
    rw [h20, h32, h40]
    rw [processTlvs_complete ts _ tailB _ hts (le_of_lt hn)]
    obtain ⟨k, hk⟩ : ∃ k, leNat ((hdr.drop 32).take 4) - ts.length = k + 1 := by
      refine ⟨leNat ((hdr.drop 32).take 4) - ts.length - 1, ?_⟩
      omega
    rw [hk, processTlvs_shortTail tailB htail]
  · rw [parse_standard_frame, if_neg (by simp only [frameHeaderLen]; omega)]
    exact processTlvs_error _ _ _

/-- Witness for C4: header declaring two TLVs, one complete heatmap TLV,
then a 4-byte truncated tail. -/
theorem claim_c4_truncated_tlvs_witness :
    ((sampleHeader 58 4 2).length = 40 ∧
      ([((5 : Nat), [9, 0])] : List (Nat × List Nat)).length
        < leNat (((sampleHeader 58 4 2).drop 32).take 4) ∧
      (([1, 0, 0, 0] : List Nat).length < 8 ∨
        (([1, 0, 0, 0] : List Nat).drop 8).length
          < leNat ((([1, 0, 0, 0] : List Nat).drop 4).take 4))) ∧
    parse_standard_frame (sampleHeader 58 4 2 ++
        ((([((5 : Nat), [9, 0])] : List (Nat × List Nat)).map encTlv).flatten
          ++ [1, 0, 0, 0]))
      = ([((5 : Nat), [9, 0])] : List (Nat × List Nat)).foldl
          (fun r t => applyTlv r t.1 t.2)
          { initRecord with
            frameNum := some (leNat (((sampleHeader 58 4 2).drop 20).take 4)) } :=
  ⟨⟨by decide, by decide, by decide⟩,
    (claim_c4_truncated_tlvs (sampleHeader 58 4 2) [((5 : Nat), [9, 0])]
      [1, 0, 0, 0] (by decide) (by decide) (by decide) (by decide)).1⟩

/-! ### Returned-frame invariants (C6) -/

/-- Claim C6: every buffer returned by `read_raw_frame` begins with the
magic word, its declared little-endian length (bytes 12..15) lies in
`[16, 100000]`, and the buffer size equals that declared length (so an
out-of-range declared length never yields a frame); and the payload read
loop, over any sequence of chunk deliveries, either aborts or returns
exactly the requested number of bytes. -/
theorem claim_c6_invariants :
    (∀ (s f rest : List Nat), read_raw_frame s = (some f, rest) →
      f.take 8 = UART_MAGIC_WORD ∧
      16 ≤ leNat ((f.drop 12).take 4) ∧
      leNat ((f.drop 12).take 4) ≤ 100000 ∧
      f.length = leNat ((f.drop 12).take 4)) ∧
    (∀ (need : Nat) (script : List (List Nat)) (p : List Nat),
      readChunks need script = some p → p.length = need) := by
  constructor
  · intro s f rest h
    rw [read_raw_frame] at h
    rcases hh : hunt s 0 [] with - | ⟨m, s1⟩
    · rw [hh] at h; exact absurd h (by simp)
    · rw [hh] at h
      dsimp only at h
      have hm : m = UART_MAGIC_WORD := hunt_sound s 0 [] m s1 (by omega) rfl hh
      by_cases g1 : (s1.take 4).length < 4 ∨ ((s1.drop 4).take 4).length < 4
      · rw [if_pos g1] at h; exact absurd h (by simp)
      · rw [if_neg g1] at h
        by_cases g2 : 100000 < leNat ((s1.drop 4).take 4) ∨
            leNat ((s1.drop 4).take 4) < 16
        · rw [if_pos g2] at h; exact absurd h (by simp)
        · rw [if_neg g2] at h
          rcases hrc : readChunks (leNat ((s1.drop 4).take 4) - 16)
              [(s1.drop 4).drop 4] with - | payload
          · rw [hrc] at h; exact absurd h (by simp)
          · rw [hrc] at h
            simp only [Prod.mk.injEq, Option.some.injEq] at h
            obtain ⟨hfeq, -⟩ := h
            have hm8 : m.length = 8 := by rw [hm]; rfl
            have hvb : (s1.take 4).length = 4 := by
              have h1 := List.length_take 4 s1
              have h2 : ¬ (s1.take 4).length < 4 := fun hc => g1 (Or.inl hc)
              omega
            have hlb : ((s1.drop 4).take 4).length = 4 := by
              have h1 := List.length_take 4 (s1.drop 4)
              have h2 : ¬ ((s1.drop 4).take 4).length < 4 :=
                fun hc => g1 (Or.inr hc)
              omega
            have hpl : payload.length = leNat ((s1.drop 4).take 4) - 16 :=
              readChunks_length _ _ _ hrc
            have hf2 : f = (m ++ s1.take 4) ++ ((s1.drop 4).take 4 ++ payload) := by
              rw [← hfeq]; simp [List.append_assoc]
            have hd12 : f.drop 12 = (s1.drop 4).take 4 ++ payload := by
              rw [hf2]
              exact List.drop_left' (by rw [List.length_append, hm8, hvb])
            have hfl : leNat ((f.drop 12).take 4) = leNat ((s1.drop 4).take 4) := by
              rw [hd12, List.take_append_of_le_length (by omega),
                List.take_of_length_le (by omega)]
            refine ⟨?_, ?_, ?_, ?_⟩
            · rw [← hfeq, hm, List.append_assoc, List.append_assoc,
                List.take_append_of_le_length (by simp [UART_MAGIC_WORD]),
                List.take_of_length_le (by simp [UART_MAGIC_WORD])]
            · rw [hfl]; omega
            · rw [hfl]; omega
            · rw [hfl, hf2]
              simp only [List.length_append, hm8, hvb, hlb, hpl]
              omega
  · exact fun need script p h => readChunks_length script need p h

/-- Witness for C6 on a concrete stream carrying one bare frame followed by
a stray byte. -/
theorem claim_c6_invariants_witness :
    read_raw_frame (sampleHeader 40 9 0 ++ [7])
        = (some (sampleHeader 40 9 0), [7]) ∧
    ((sampleHeader 40 9 0).take 8 = UART_MAGIC_WORD ∧
      16 ≤ leNat (((sampleHeader 40 9 0).drop 12).take 4) ∧
      leNat (((sampleHeader 40 9 0).drop 12).take 4) ≤ 100000 ∧
      (sampleHeader 40 9 0).length
        = leNat (((sampleHeader 40 9 0).drop 12).take 4)) :=
  ⟨by decide,
    claim_c6_invariants.1 (sampleHeader 40 9 0 ++ [7]) (sampleHeader 40 9 0)
      [7] (by decide)⟩

/-! ### Sub-decoder exception leaks (C3) -/

/-- Claim C3 is violated by the code: `parseVitalSignsTLV` on a TLV whose
payload is shorter than the 136-byte vitals struct (here a declared length
of 10 with 10 payload bytes), and `parseTrackTLV` on a declared length of
112 with a 10-byte payload, both let an `UnboundLocalError` escape: the
`except` branch stores a default and neither returns nor breaks, so the
next line reads the unbound unpack result. -/
theorem claim_c3_unpack_leak :
    (parseVitalSignsTLV (List.replicate 10 0) 10).2
        = some PyExc.unboundLocalError ∧
    (parseTrackTLV (List.replicate 10 0) 112).2
        = some PyExc.unboundLocalError := by
  decide

/-! ### Adaptive colour scale (C10) -/

/-- Claim C10: `adaptive_color_scale` produces display bounds exactly when
`frame_count` is a multiple of `update_rate`; on every other call no value
is ever assigned to the bounds and the final `return vmin, vmax` fails
(modelled by `none`), so the error branch is reachable for any
`frame_count` that is not a multiple. -/
theorem claim_c10_color_scale (data : List ℝ) (frame_count update_rate : Nat)
    (_hur : 0 < update_rate) :
    (adaptive_color_scale data frame_count update_rate).isSome = true
      ↔ frame_count % update_rate = 0 := by
  unfold adaptive_color_scale
  by_cases h : frame_count % update_rate = 0
  · rw [if_pos h]
    dsimp only
    constructor
    · intro _; exact h
    · intro _
      split <;> rfl
  · rw [if_neg h]
    simp [h]

/-- Witness for C10: `frame_count = 1`, `update_rate = 10` (the value used
by `main`) gives no bounds. -/
theorem claim_c10_color_scale_witness :
    (0 < 10) ∧
      ((adaptive_color_scale [] 1 10).isSome = true ↔ (1 : Nat) % 10 = 0) :=
  ⟨by decide, claim_c10_color_scale [] 1 10 (by decide)⟩

/-! ### Spherical-to-Cartesian conversion (C9) -/

/-- The composed spherical TLV decode is a pointwise map. -/
theorem parseSpherical_eq_map (pts : List (ℝ × ℝ × ℝ × ℝ)) :
    parseSphericalPointCloudTLV pts
      = pts.map (fun r =>
          (r.1 * Real.sin r.2.1 * Real.cos r.2.2.1,
           r.1 * Real.cos r.2.1 * Real.cos r.2.2.1,
           r.1 * Real.sin r.2.2.1,
           r.2.2.2)) := by
  unfold parseSphericalPointCloudTLV sphericalToCartesianPointCloud
  rw [List.map_map, List.zipWith_map_left, List.zipWith_same]
  rfl

/-- Claim C9: every successfully unpacked spherical point
`(R, az, el, doppler)` is stored, after conversion, as
`(R·sin az·cos el, R·cos az·cos el, R·sin el, doppler)`. -/
theorem claim_c9_spherical (pts : List (ℝ × ℝ × ℝ × ℝ)) (i : Nat)
    (hi : i < pts.length) :
    (parseSphericalPointCloudTLV pts).getD i (0, 0, 0, 0)
      = ((pts.getD i (0, 0, 0, 0)).1
           * Real.sin (pts.getD i (0, 0, 0, 0)).2.1
           * Real.cos (pts.getD i (0, 0, 0, 0)).2.2.1,
         (pts.getD i (0, 0, 0, 0)).1
           * Real.cos (pts.getD i (0, 0, 0, 0)).2.1
           * Real.cos (pts.getD i (0, 0, 0, 0)).2.2.1,
         (pts.getD i (0, 0, 0, 0)).1
           * Real.sin (pts.getD i (0, 0, 0, 0)).2.2.1,
         (pts.getD i (0, 0, 0, 0)).2.2.2) := by
  rw [parseSpherical_eq_map]
  rw [List.getD_eq_getElem _ _ (by simpa using hi),
    List.getD_eq_getElem _ _ hi, List.getElem_map]

/-- Witness for C9 at the single point `(R, az, el, doppler) = (1, 0, 0, 5)`. -/
theorem claim_c9_spherical_witness :
    ((0 : Nat) < ([((1 : ℝ), (0 : ℝ), (0 : ℝ), (5 : ℝ))]).length) ∧
    (parseSphericalPointCloudTLV [((1 : ℝ), (0 : ℝ), (0 : ℝ), (5 : ℝ))]).getD
        0 (0, 0, 0, 0)
      = ((([((1 : ℝ), (0 : ℝ), (0 : ℝ), (5 : ℝ))]).getD 0 (0, 0, 0, 0)).1
           * Real.sin (([((1 : ℝ), (0 : ℝ), (0 : ℝ), (5 : ℝ))]).getD 0
              (0, 0, 0, 0)).2.1
           * Real.cos (([((1 : ℝ), (0 : ℝ), (0 : ℝ), (5 : ℝ))]).getD 0
              (0, 0, 0, 0)).2.2.1,
         (([((1 : ℝ), (0 : ℝ), (0 : ℝ), (5 : ℝ))]).getD 0 (0, 0, 0, 0)).1
           * Real.cos (([((1 : ℝ), (0 : ℝ), (0 : ℝ), (5 : ℝ))]).getD 0
              (0, 0, 0, 0)).2.1
           * Real.cos (([((1 : ℝ), (0 : ℝ), (0 : ℝ), (5 : ℝ))]).getD 0
              (0, 0, 0, 0)).2.2.1,
         (([((1 : ℝ), (0 : ℝ), (0 : ℝ), (5 : ℝ))]).getD 0 (0, 0, 0, 0)).1
           * Real.sin (([((1 : ℝ), (0 : ℝ), (0 : ℝ), (5 : ℝ))]).getD 0
              (0, 0, 0, 0)).2.2.1,
         (([((1 : ℝ), (0 : ℝ), (0 : ℝ), (5 : ℝ))]).getD 0 (0, 0, 0, 0)).2.2.2) :=
  ⟨Nat.succ_pos 0,
    claim_c9_spherical [((1 : ℝ), (0 : ℝ), (0 : ℝ), (5 : ℝ))] 0 (Nat.succ_pos 0)⟩

/-! ### Background estimation (C7) -/

/-- Counterexample to C7 as stated: on the very first frame (constant-zero
heatmap, `C = 1`, `min_range_bin = 1`) the emitted entry at row 0 is the
range-gate floor `DB_MIN = -80`, while `dB - background` at that entry is
`0`; the emitted matrix is therefore not `dB - background` (rows below
`min_range_bin` are gated). -/
theorem claim_c7_counterexample :
    (process_radar_frame 1 1 (some (fun _ => (0 : ℝ))) none).1.map
        (fun m => m 0 0) = some DB_MIN ∧
    (process_radar_frame 1 1 (some (fun _ => (0 : ℝ))) none).2.map
        (fun b => dbMatrix 1 (fun _ => (0 : ℝ)) 0 0 - b 0 0) = some 0 ∧
    DB_MIN ≠ (0 : ℝ) := by
  refine ⟨?_, ?_, ?_⟩
  · simp [process_radar_frame]
  · simp [process_radar_frame]
  · simp only [DB_MIN]
    norm_num

/-- Claim C7 (amended): the background satisfies the exponential
moving-average recurrence — first frame `background := dB`, later frames
`background := α·background + (1-α)·dB` — and the emitted matrix equals
`dB - background` in every row at or above the range gate `min_range_bin`
(rows below it are forced to `DB_MIN`); consequently, feeding the same
heatmap repeatedly makes the background equal to its dB image from the
first frame on, and the background-subtracted output is zero in every
ungated row. -/
theorem claim_c7_background_ema :
    (∀ (C minBin : Nat) (flat : Nat → ℝ),
      (process_radar_frame C minBin (some flat) none).2
        = some (dbMatrix C flat)) ∧
    (∀ (C minBin : Nat) (flat : Nat → ℝ) (b : Nat → Nat → ℝ),
      (process_radar_frame C minBin (some flat) (some b)).2
        = some (fun i j => CLUTTER_ALPHA * b i j
            + (1 - CLUTTER_ALPHA) * dbMatrix C flat i j)) ∧
    (∀ (C minBin : Nat) (flat : Nat → ℝ) (bg : Option (Nat → Nat → ℝ))
        (i j : Nat), minBin ≤ i →
      (process_radar_frame C minBin (some flat) bg).1.map (fun m => m i j)
        = (process_radar_frame C minBin (some flat) bg).2.map
            (fun b => dbMatrix C flat i j - b i j)) ∧
    (∀ (C minBin : Nat) (flat : Nat → ℝ) (n : Nat), 0 < n →
      (processIter C minBin flat n).2 = some (dbMatrix C flat) ∧
      ∀ (i j : Nat), minBin ≤ i →
        (processIter C minBin flat n).1.map (fun m => m i j) = some 0) := by
  have hstep2 : ∀ (C minBin : Nat) (flat : Nat → ℝ),
      (process_radar_frame C minBin (some flat) (some (dbMatrix C flat))).2
        = some (dbMatrix C flat) := by
    intro C minBin flat
    simp only [process_radar_frame, Option.some.injEq]
    funext i j
    ring
  refine ⟨?_, ?_, ?_, ?_⟩
  · intro C minBin flat; rfl
  · intro C minBin flat b; rfl
  · intro C minBin flat bg i j hij
    cases bg with
    | none =>
      simp only [process_radar_frame, Option.map_some']
      rw [if_neg (by omega)]
    | some b =>
      simp only [process_radar_frame, Option.map_some']
      rw [if_neg (by omega)]
  · intro C minBin flat n hn
    induction n with
    | zero => omega
    | succ n ih =>
      by_cases hn0 : n = 0
      · subst hn0
        constructor
        · rfl
        · intro i j hij
          show (process_radar_frame C minBin (some flat) none).1.map
            (fun m => m i j) = some 0
          simp only [process_radar_frame, Option.map_some']
          rw [if_neg (by omega)]
          simp
      · have hbg := (ih (by omega)).1
        constructor
        · show (process_radar_frame C minBin (some flat)
            (processIter C minBin flat n).2).2 = some (dbMatrix C flat)
          rw [hbg]
          exact hstep2 C minBin flat
        · intro i j hij
          show (process_radar_frame C minBin (some flat)
            (processIter C minBin flat n).2).1.map (fun m => m i j) = some 0
          rw [hbg]
          simp only [process_radar_frame, Option.map_some']
          rw [if_neg (by omega)]
          simp only [Option.some.injEq]
          ring

/-- Witness for C7 (amended) at the constant-zero 1×1 heatmap, one frame,
gate at row 1. -/
theorem claim_c7_background_ema_witness :
    (0 < 1) ∧
      (processIter 1 1 (fun _ => (0 : ℝ)) 1).2
        = some (dbMatrix 1 (fun _ => (0 : ℝ))) :=
  ⟨Nat.one_pos,
    (claim_c7_background_ema.2.2.2 1 1 (fun _ => (0 : ℝ)) 1 Nat.one_pos).1⟩

/-! ### Cadence extraction (C8) -/

theorem bestFrom_mem (f : Nat → ℝ) :
    ∀ (ks : List Nat) (b : Nat), bestFrom f b ks ∈ b :: ks := by
  intro ks
  induction ks with
  | nil => intro b; simp [bestFrom]
  | cons k ks ih =>
    intro b
    rw [bestFrom]
    by_cases h : f b < f k
    · rw [if_pos h]
      rcases List.mem_cons.mp (ih k) with h' | h'
      · rw [h']; exact List.mem_cons_of_mem _ (List.mem_cons_self _ _)
      · exact List.mem_cons_of_mem _ (List.mem_cons_of_mem _ h')
    · rw [if_neg h]
      rcases List.mem_cons.mp (ih b) with h' | h'
      · rw [h']; exact List.mem_cons_self _ _
      · exact List.mem_cons_of_mem _ (List.mem_cons_of_mem _ h')

theorem bestFrom_le (f : Nat → ℝ) :
    ∀ (ks : List Nat) (b : Nat),
      f b ≤ f (bestFrom f b ks) ∧
        ∀ j ∈ ks, f j ≤ f (bestFrom f b ks) := by
  intro ks
  induction ks with
  | nil => intro b; exact ⟨le_refl _, by simp⟩
  | cons k ks ih =>
    intro b
    rw [bestFrom]
    by_cases h : f b < f k
    · rw [if_pos h]
      refine ⟨le_trans (le_of_lt h) (ih k).1, ?_⟩
      intro j hj
      rcases List.mem_cons.mp hj with h' | h'
      · rw [h']; exact (ih k).1
      · exact (ih k).2 j h'
    · rw [if_neg h]
      refine ⟨(ih b).1, ?_⟩
      intro j hj
      rcases List.mem_cons.mp hj with h' | h'
      · rw [h']; exact le_trans (not_lt.mp h) (ih b).1
      · exact (ih b).2 j h'

/-- Claim C8: for a non-empty energy signal whose rfft frequency grid has a
bin in the 0.8–4.0 Hz band, the cadence block reports the frequency of a
bin of maximal magnitude among exactly the in-band bins (so the reported
bin is in band and no in-band bin has a larger magnitude), and reports
steps-per-minute as 60 times that frequency. -/
theorem claim_c8_cadence (sig : List ℝ) (dur : ℝ) (hsig : sig ≠ [])
    (hmask : humanFreqMask sig.length (dur / sig.length) ≠ []) :
    ∃ k ∈ humanFreqMask sig.length (dur / sig.length),
      cadenceResult sig dur
        = some (rfftfreq sig.length (dur / sig.length) k,
            rfftfreq sig.length (dur / sig.length) k * 60) ∧
      0.8 ≤ rfftfreq sig.length (dur / sig.length) k ∧
      rfftfreq sig.length (dur / sig.length) k ≤ 4.0 ∧
      ∀ j ∈ humanFreqMask sig.length (dur / sig.length),
        rfftMag (detrend sig) j ≤ rfftMag (detrend sig) k := by
  have hn : 0 < sig.length := List.length_pos.mpr hsig
  obtain ⟨k0, ks, hmm⟩ : ∃ k0 ks,
      humanFreqMask sig.length (dur / sig.length) = k0 :: ks := by
    rcases hcase : humanFreqMask sig.length (dur / sig.length) with - | ⟨k0, ks⟩
    · exact absurd hcase hmask
    · exact ⟨k0, ks, rfl⟩
  refine ⟨bestFrom (rfftMag (detrend sig)) k0 ks, ?_, ?_, ?_, ?_, ?_⟩
  · rw [hmm]; exact bestFrom_mem _ ks k0
  · unfold cadenceResult
    dsimp only
    rw [if_pos hn, hmm]
    rfl
  · have hmem : bestFrom (rfftMag (detrend sig)) k0 ks
        ∈ humanFreqMask sig.length (dur / sig.length) := by
      rw [hmm]; exact bestFrom_mem _ ks k0
    have := (List.mem_filter.mp hmem).2
    simp only [Bool.and_eq_true, decide_eq_true_eq] at this
    exact this.1
  · have hmem : bestFrom (rfftMag (detrend sig)) k0 ks
        ∈ humanFreqMask sig.length (dur / sig.length) := by
      rw [hmm]; exact bestFrom_mem _ ks k0
    have := (List.mem_filter.mp hmem).2
    simp only [Bool.and_eq_true, decide_eq_true_eq] at this
    exact this.2
  · intro j hj
    rw [hmm] at hj
    rcases List.mem_cons.mp hj with h' | h'
    · rw [h']; exact (bestFrom_le (rfftMag (detrend sig)) ks k0).1
    · exact (bestFrom_le (rfftMag (detrend sig)) ks k0).2 j h'

/-- Frequency grid of a 4-sample signal over 2 seconds: the only bin in the
0.8–4.0 Hz band is bin 2 (1 Hz). -/
theorem humanFreqMask_four : humanFreqMask 4 ((2 : ℝ) / ((4 : Nat) : ℝ)) = [2] := by
  unfold humanFreqMask rfftfreq
  norm_num [List.range_succ, List.filter_append, List.filter_cons,
    List.filter_nil, decide_eq_true_eq, Bool.and_eq_true]

/-- Witness for C8: the 4-sample signal `[1, 0, 1, 0]` over 2 seconds has a
non-empty in-band grid, so the theorem applies. -/
theorem claim_c8_cadence_witness :
    (([1, 0, 1, 0] : List ℝ) ≠ [] ∧
      humanFreqMask (([1, 0, 1, 0] : List ℝ)).length
        ((2 : ℝ) / ((([1, 0, 1, 0] : List ℝ)).length : ℝ)) ≠ []) ∧
    ∃ k ∈ humanFreqMask (([1, 0, 1, 0] : List ℝ)).length
        ((2 : ℝ) / ((([1, 0, 1, 0] : List ℝ)).length : ℝ)),
      cadenceResult ([1, 0, 1, 0] : List ℝ) 2
        = some (rfftfreq (([1, 0, 1, 0] : List ℝ)).length
              ((2 : ℝ) / ((([1, 0, 1, 0] : List ℝ)).length : ℝ)) k,
            rfftfreq (([1, 0, 1, 0] : List ℝ)).length
              ((2 : ℝ) / ((([1, 0, 1, 0] : List ℝ)).length : ℝ)) k * 60) ∧
      0.8 ≤ rfftfreq (([1, 0, 1, 0] : List ℝ)).length
          ((2 : ℝ) / ((([1, 0, 1, 0] : List ℝ)).length : ℝ)) k ∧
      rfftfreq (([1, 0, 1, 0] : List ℝ)).length
          ((2 : ℝ) / ((([1, 0, 1, 0] : List ℝ)).length : ℝ)) k ≤ 4.0 ∧
      ∀ j ∈ humanFreqMask (([1, 0, 1, 0] : List ℝ)).length
          ((2 : ℝ) / ((([1, 0, 1, 0] : List ℝ)).length : ℝ)),
        rfftMag (detrend ([1, 0, 1, 0] : List ℝ)) j
          ≤ rfftMag (detrend ([1, 0, 1, 0] : List ℝ)) k :=
  ⟨⟨by simp, by
      rw [show (([1, 0, 1, 0] : List ℝ)).length = 4 from rfl, humanFreqMask_four]
      simp⟩,
    claim_c8_cadence ([1, 0, 1, 0] : List ℝ) 2 (by simp) (by
      rw [show (([1, 0, 1, 0] : List ℝ)).length = 4 from rfl, humanFreqMask_four]
      simp)⟩

/-! ### Configuration parsing failures (C5) -/

theorem exceptBindOk {α β : Type} (a : α) (f : α → Except PyExc β) :
    (Except.ok a >>= f) = f a := rfl

theorem exceptBindErr {α β : Type} (e : PyExc) (f : α → Except PyExc β) :
    ((Except.error e : Except PyExc α) >>= f) = Except.error e := rfl

/-- Counterexample to C5 as stated: with valid `profileCfg` and `frameCfg`
lines but no `channelCfg` line at all, `RadarConfig._parse_file` succeeds
(the `antennas` defaults give popcounts of zero, so `Nv = 0`) instead of
failing — and no dedicated `ConfigError` exists anywhere in the source. -/
theorem claim_c5_counterexample :
    exceptOk (RadarConfig_parse cfgNoChannel) = true ∧
    (okValue (RadarConfig_parse cfgNoChannel)).map ConfigRec.Nv = some 0 :=
  ⟨by decide, by decide⟩

/-- Claim C5 (amended): neither configuration parser raises a dedicated
`ConfigError` (no such class exists).  In `RadarConfig._parse_file`
(`ti_radar/config.py`) a missing `profileCfg` or `frameCfg` raises
`KeyError`, a zero derived denominator (`sampleRate`, `2·BW`, the `dopRes`
denominator) raises `ZeroDivisionError`, scan-phase numeral failures
(`ValueError`, `IndexError` for a missing token) propagate, and a missing
`channelCfg` is not an error there (the `antennas` defaults apply).  In
`cfg_params.__init__` (`radar/utils/parseCFG.py`) the `antennas` dict has
no defaults, so a missing `channelCfg` does raise `KeyError`, as do a
missing `profileCfg`/`frameCfg`; token failures propagate and the same
zero-denominator divisions raise `ZeroDivisionError`. -/
theorem claim_c5_error_classes :
    ((∀ (lines : List String) (st : ScanState),
      scanPhase lines = Except.ok st →
      (st.chirpProf = none →
        RadarConfig_parse lines = Except.error PyExc.keyError) ∧
      (∀ cp : ChirpProf, st.chirpProf = some cp →
        (cp.sampleRate.isZero = true →
          RadarConfig_parse lines = Except.error PyExc.zeroDivisionError) ∧
        (cp.sampleRate.isZero = false → (bwDenom cp).isZero = true →
          RadarConfig_parse lines = Except.error PyExc.zeroDivisionError) ∧
        (cp.sampleRate.isZero = false → (bwDenom cp).isZero = false →
          st.frameCfg = none →
          RadarConfig_parse lines = Except.error PyExc.keyError) ∧
        (∀ fc : FrameCfgRec, st.frameCfg = some fc →
          cp.sampleRate.isZero = false → (bwDenom cp).isZero = false →
          (dopDenom cp fc).isZero = true →
          RadarConfig_parse lines = Except.error PyExc.zeroDivisionError))) ∧
    (∀ (lines : List String) (e : PyExc),
      scanPhase lines = Except.error e →
      RadarConfig_parse lines = Except.error e)) ∧
    ((∀ lines : List String, antennasScan (cfgFilter lines) = Except.ok none →
      cfg_params_init lines = Except.error PyExc.keyError) ∧
    (∀ (lines : List String) (e : PyExc),
      antennasScan (cfgFilter lines) = Except.error e →
      cfg_params_init lines = Except.error e) ∧
    (∀ (lines : List String) (a : Int × Int),
      antennasScan (cfgFilter lines) = Except.ok (some a) →
      (profileScan (cfgFilter lines) = Except.ok none →
        cfg_params_init lines = Except.error PyExc.keyError) ∧
      (∀ cp : ChirpProf, profileScan (cfgFilter lines) = Except.ok (some cp) →
        (cp.sampleRate.isZero = true →
          cfg_params_init lines = Except.error PyExc.zeroDivisionError) ∧
        (cp.sampleRate.isZero = false → (bwDenom cp).isZero = true →
          cfg_params_init lines = Except.error PyExc.zeroDivisionError) ∧
        (cp.sampleRate.isZero = false → (bwDenom cp).isZero = false →
          frameScan (cfgFilter lines) = Except.ok none →
          cfg_params_init lines = Except.error PyExc.keyError) ∧
        (∀ fc : FrameCfgRec, frameScan (cfgFilter lines) = Except.ok (some fc) →
          cp.sampleRate.isZero = false → (bwDenom cp).isZero = false →
          (dopDenomCfg cp fc).isZero = true →
          cfg_params_init lines = Except.error PyExc.zeroDivisionError)))) := by
  refine ⟨⟨?_, ?_⟩, ?_, ?_, ?_⟩
  · intro lines st hscan
    constructor
    · intro hcp
      simp [RadarConfig_parse, hscan, exceptBindOk, hcp, exceptBindErr]
    · intro cp hcp
      refine ⟨?_, ?_, ?_, ?_⟩
      · intro hz
        simp [RadarConfig_parse, hscan, exceptBindOk, hcp, exceptBindErr,
          pyDiv, hz]
      · intro hnz hz
        simp only [bwDenom] at hz
        simp [RadarConfig_parse, hscan, exceptBindOk, hcp, exceptBindErr,
          pyDiv, hnz, hz]
      · intro hnz hbw hfc
        simp only [bwDenom] at hbw
        simp [RadarConfig_parse, hscan, exceptBindOk, hcp, hfc,
          exceptBindErr, pyDiv, hnz, hbw]
      · intro fc hfc hnz hbw hdz
        simp only [bwDenom] at hbw
        simp only [dopDenom] at hdz
        simp [RadarConfig_parse, hscan, exceptBindOk, hcp, hfc,
          exceptBindErr, pyDiv, hnz, hbw, hdz]
  · intro lines e hscan
    simp [RadarConfig_parse, hscan, exceptBindErr]
  · intro lines hant
    simp [cfg_params_init, hant, exceptBindOk, exceptBindErr]
  · intro lines e hant
    simp [cfg_params_init, hant, exceptBindErr]
  · intro lines a hant
    constructor
    · intro hprof
      simp [cfg_params_init, hant, hprof, exceptBindOk, exceptBindErr]
    · intro cp hprof
      refine ⟨?_, ?_, ?_, ?_⟩
      · intro hz
        simp [cfg_params_init, hant, hprof, exceptBindOk, exceptBindErr,
          pyDiv, hz]
      · intro hnz hz
        simp only [bwDenom] at hz
        simp [cfg_params_init, hant, hprof, exceptBindOk, exceptBindErr,
          pyDiv, hnz, hz]
      · intro hnz hbw hframe
        simp only [bwDenom] at hbw
        simp [cfg_params_init, hant, hprof, hframe, exceptBindOk,
          exceptBindErr, pyDiv, hnz, hbw]
      · intro fc hframe hnz hbw hdz
        simp only [bwDenom] at hbw
        simp only [dopDenomCfg] at hdz
        simp [cfg_params_init, hant, hprof, hframe, exceptBindOk,
          exceptBindErr, pyDiv, hnz, hbw, hdz]

/-- Witness for C5 (amended): the same directive texts drive both parsers —
without `profileCfg`, `_parse_file` raises `KeyError`; without
`channelCfg`, `cfg_params.__init__` raises `KeyError` (while `_parse_file`
succeeds on that text, per the counterexample). -/
theorem claim_c5_error_classes_witness :
    (scanPhase cfgNoProfile
        = Except.ok (ScanState.mk 0 0 none (some (FrameCfgRec.mk 0 2 32 100))) ∧
      RadarConfig_parse cfgNoProfile = Except.error PyExc.keyError) ∧
    (antennasScan (cfgFilter cfgNoChannel) = Except.ok none ∧
      cfg_params_init cfgNoChannel = Except.error PyExc.keyError) :=
  ⟨⟨by rfl,
    (claim_c5_error_classes.1.1 cfgNoProfile
      (ScanState.mk 0 0 none (some (FrameCfgRec.mk 0 2 32 100))) (by rfl)).1 rfl⟩,
   ⟨by rfl, claim_c5_error_classes.2.1 cfgNoChannel (by rfl)⟩⟩

end OstRadar
